import Mathlib

/-!
Shallow embedding of the auth0-js-implicit session manager
(src/authenticator.ts, src/storage.ts) and proofs about its
specification claims.

JavaScript numbers that matter here are integers (epoch milliseconds,
seconds) or NaN, so they are modelled as `JSNum`.  Dynamically typed
values flowing through `extractAuthData` are modelled as `JSVal`.
`Date.now()` is passed explicitly as a parameter `now`.
-/

/-- JavaScript number restricted to the integral values the program uses,
plus NaN (produced by failed parses and arithmetic on non-numbers). -/
inductive JSNum where
  | nan
  | int (n : Int)
deriving DecidableEq

/-- A JavaScript value as it can reach `extractAuthData`: undefined, a
number (or NaN), a string, or a plain object modelled by its `sub`
property (`.obj .undef` is an object without a usable `sub`). -/
inductive JSVal where
  | undef
  | nan
  | num (n : Int)
  | str (s : String)
  | obj (sub : JSVal)
deriving DecidableEq

/-- Decimal digit characters emitted by JavaScript `String(n)`,
least-significant digit first; `fuel` bounds the recursion. -/
def natToRevDigitsAux : Nat → Nat → List Char
  | 0, _ => []
  | fuel + 1, n =>
    if n < 10 then [Char.ofNat (48 + n)]
    else Char.ofNat (48 + n % 10) :: natToRevDigitsAux fuel (n / 10)

def natToRevDigits (n : Nat) : List Char := natToRevDigitsAux (n + 1) n

/-- JavaScript `String(n)` for the integers the program stores. -/
def jsIntToString (n : Int) : String :=
  if n < 0 then String.mk ('-' :: (natToRevDigits n.natAbs).reverse)
  else String.mk (natToRevDigits n.toNat).reverse

/-- Value of a most-significant-first digit string. -/
def digitsValue (ds : List Char) : Nat :=
  ds.foldl (fun a c => a * 10 + (c.toNat - 48)) 0

/-- Longest digit prefix, as `Number.parseInt` reads it; empty prefix
means NaN. -/
def parseDigits (neg : Bool) (cs : List Char) : JSNum :=
  let ds := cs.takeWhile Char.isDigit
  if ds = [] then .nan
  else .int (if neg then -(digitsValue ds : Int) else (digitsValue ds : Int))

/-- JavaScript `Number.parseInt` on the strings the storage layer holds:
optional sign followed by the longest digit prefix; no digits gives NaN. -/
def parseIntJS (s : String) : JSNum :=
  match s.data with
  | [] => .nan
  | c :: cs =>
    if c = '-' then parseDigits true cs
    else if c = '+' then parseDigits false cs
    else parseDigits false (c :: cs)

/-! ## JavaScript value helpers -/

/-- JavaScript `typeof`. -/
def JSVal.typeOf : JSVal → String
  | .undef => "undefined"
  | .nan => "number"
  | .num _ => "number"
  | .str _ => "string"
  | .obj _ => "object"

/-- JavaScript truthiness. -/
def JSVal.truthy : JSVal → Bool
  | .undef => false
  | .nan => false
  | .num n => n != 0
  | .str s => s != ""
  | .obj _ => true

/-- JavaScript string coercion, as used by template literals and by
`setItem` on the string-only storage medium. -/
def JSVal.display : JSVal → String
  | .undef => "undefined"
  | .nan => "NaN"
  | .num n => jsIntToString n
  | .str s => s
  | .obj _ => "[object Object]"

/-- Property access `payload.sub` (an object carries its `sub`; reading
`sub` on the other object shapes the code guards against yields
undefined and is never reached on non-objects). -/
def JSVal.subField : JSVal → JSVal
  | .obj s => s
  | _ => .undef

def JSNum.truthy : JSNum → Bool
  | .nan => false
  | .int n => n != 0

/-! ## Response Extractor (extractAuthData, authenticator.ts 208-232) -/

/-- Raw provider response shape (`AuthResponse` in authenticator.ts);
every field is dynamically typed. -/
structure AuthResponse where
  idTokenPayload : JSVal
  accessToken : JSVal
  expiresIn : JSVal
deriving DecidableEq

/-- Extracted credential record (`{ userId, accessToken, expiresAt }`). -/
structure AuthData where
  userId : JSVal
  accessToken : String
  expiresAt : Int
deriving DecidableEq

/-- `extractAuthData` from authenticator.ts.  The three guard clauses
and their exact messages, then the `sub` check, then
`expiresAt = Date.now() + expiresIn * 1000`.  A thrown `Error` is the
`.error` case.  `expiresIn` is rejected when
`!expiresIn || typeof expiresIn !== 'number' || !(expiresIn > -1)`:
for an integer number that is `expiresIn = 0 ∨ ¬(expiresIn > -1)`,
for every non-number (including NaN, which is falsy) it always fails. -/
def extractAuthData (p : AuthResponse) (now : Int) : Except String AuthData :=
  match p.idTokenPayload with
  | .obj sub =>
    match p.accessToken with
    | .str t =>
      match p.expiresIn with
      | .num e =>
        if e = 0 ∨ ¬(e > -1) then
          .error ("expected expiresIn to be a positive integer, got " ++ (JSVal.num e).display)
        else if sub.truthy then
          .ok { userId := sub, accessToken := t, expiresAt := now + e * 1000 }
        else
          .error "idTokenPayload.sub not found in parsed hash"
      | other => .error ("expected expiresIn to be a positive integer, got " ++ other.display)
    | other => .error ("expected accessToken to be a string, got " ++ other.display)
  | other => .error ("expected idTokenPayload to be an object, got " ++ other.display)

/-- `extractAuthData(parsed)` when `checkSession` handed `reauthenticate`
an undefined `result`: destructuring `undefined` throws a TypeError
before any validation runs. -/
def extractFromParsed (r : Option AuthResponse) (now : Int) : Except String AuthData :=
  match r with
  | none => .error "TypeError: cannot destructure property of undefined"
  | some p => extractAuthData p now

/-! ## Expiration Evaluator (extractExpirationData, authenticator.ts 234-248) -/

/-- `extractExpirationData(expiresAt?, leeway?)`.  `[false]` is
`(false, none)`, `[true, b]` is `(true, some b)`.  `!expiresAt` catches
undefined, NaN and 0; then `expiresWithin = expiresAt - Date.now()`
must be non-negative; `isExpiringSoon` is `expiresWithin < leeway` only
when `leeway && Number.isInteger(leeway)` is truthy (so a zero, absent
or malformed leeway yields `true`). -/
def extractExpirationData (expiresAt leeway : Option JSNum) (now : Int) : Bool × Option Bool :=
  match expiresAt with
  | some (.int n) =>
    if n = 0 then (false, none)
    else
      let expiresWithin := n - now
      if expiresWithin < 0 then (false, none)
      else
        let isExpiringSoon : Bool :=
          match leeway with
          | some (.int l) => if l ≠ 0 then decide (expiresWithin < l) else true
          | _ => true
        (true, some isExpiringSoon)
  | _ => (false, none)

/-! ## Credential Store (makeAuthStorage, storage.ts 127-156) -/

/-- The underlying string-only key-value medium, one field per default
key (`login_location`, `user_id`, `access_token`, `expires_at`,
`auth_nonce`, `auth_state`). -/
structure Medium where
  loginLocation : Option String := none
  userId : Option String := none
  accessToken : Option String := none
  expiresAt : Option String := none
  nonce : Option String := none
  stateVal : Option String := none
deriving DecidableEq

def emptyMedium : Medium := {}

/-- `stringOrUndefined`: a falsy (null or empty) raw value reads back as
absent. -/
def stringOrUndefined (v : Option String) : Option String :=
  match v with
  | some s => if s = "" then none else some s
  | none => none

def retrieveLoginLocation (m : Medium) : Option String := stringOrUndefined m.loginLocation

def storeLoginLocation (l : String) (m : Medium) : Medium := { m with loginLocation := some l }

def removeLoginLocation (m : Medium) : Medium := { m with loginLocation := none }

def retrieveUserId (m : Medium) : Option String := stringOrUndefined m.userId

def storeUserId (u : String) (m : Medium) : Medium := { m with userId := some u }

def removeUserId (m : Medium) : Medium := { m with userId := none }

def retrieveAccessToken (m : Medium) : Option String := stringOrUndefined m.accessToken

def storeAccessToken (t : String) (m : Medium) : Medium := { m with accessToken := some t }

def removeAccessToken (m : Medium) : Medium := { m with accessToken := none }

/-- `retrieveExpiresAt`: `val ? Number.parseInt(val) : undefined` — a
missing or empty raw value is absent, everything else goes through
`parseInt` (NaN on parse failure, never an exception). -/
def retrieveExpiresAt (m : Medium) : Option JSNum :=
  match m.expiresAt with
  | none => none
  | some s => if s = "" then none else some (parseIntJS s)

/-- `storeExpiresAt(expiresAt)`: the number is coerced to its decimal
string by the medium. -/
def storeExpiresAt (n : Int) (m : Medium) : Medium := { m with expiresAt := some (jsIntToString n) }

def removeExpiresAt (m : Medium) : Medium := { m with expiresAt := none }

def retrieveNonce (m : Medium) : Option JSNum :=
  match m.nonce with
  | none => none
  | some s => if s = "" then none else some (parseIntJS s)

def storeNonce (n : Int) (m : Medium) : Medium := { m with nonce := some (jsIntToString n) }

def removeNonce (m : Medium) : Medium := { m with nonce := none }

/-! ## Session Authenticator (Authenticator, authenticator.ts 34-206) -/
/-- Authenticator options that matter to the claims
(`reauthenticationLeeway`, in seconds); the two callbacks are recorded
as event lists in the operation outcomes. -/
structure Config where
  reauthenticationLeeway : Option Int := none
deriving DecidableEq

def DEFAULT_LEEWAY : Int := 1200

/-- `getReauthenticationLeeway`:
`(options.reauthenticationLeeway || DEFAULT_LEEWAY) * 1000` — a zero or
absent option falls back to the default. -/
def leewayMs (cfg : Config) : Int :=
  (match cfg.reauthenticationLeeway with
   | some n => if n ≠ 0 then n else DEFAULT_LEEWAY
   | none => DEFAULT_LEEWAY) * 1000

/-- Instance state of an `Authenticator` plus the ambient timer table:
`pending` holds the scheduled-but-not-yet-fired timeouts (id and the
argument the callback will pass to `authenticate`), `nextId` the next
fresh timer id. -/
structure AuthState where
  medium : Medium
  reauthTimeoutId : Option Nat := none
  pending : List (Nat × Option String) := []
  nextId : Nat := 0
deriving DecidableEq

def initState : AuthState := { medium := emptyMedium }

/-- A resolved `AuthResult` promise value; `{}` is the empty snapshot. -/
structure AuthResult where
  userId : Option JSVal := none
  accessToken : Option String := none
  expiresAt : Option JSNum := none
  redirectTo : Option String := none
deriving DecidableEq

/-- A promise resolves only once; later `resolve` calls are no-ops. -/
def resolveOnce (cur : Option AuthResult) (r : AuthResult) : Option AuthResult :=
  match cur with
  | some x => some x
  | none => some r

/-- `setReauthenticationTimeout(expiresAt)`: clear the previously stored
timeout id, then schedule `this.authenticate.bind(this)` (so the fired
callback passes no `currentLocation`) after
`(expiresAt - leeway) - Date.now()` — NaN when `expiresAt` is absent or
NaN.  Returns the new state and the scheduled delay. -/
def setReauthenticationTimeout (st : AuthState) (expiresAt : Option JSNum) (lw now : Int) :
    AuthState × JSNum :=
  let delay : JSNum :=
    match expiresAt with
    | some (.int n) => .int (n - lw - now)
    | _ => .nan
  let cleared :=
    match st.reauthTimeoutId with
    | some i => st.pending.filter (fun p => p.fst ≠ i)
    | none => st.pending
  ({ st with pending := cleared ++ [(st.nextId, (none : Option String))],
             reauthTimeoutId := some st.nextId,
             nextId := st.nextId + 1 }, delay)

/-- Everything observable from one `authenticate` call: the settled
promise value (`none` when the promise never settles), the final state,
the `onReauthenticationSuccess` / `onReauthenticationFailure`
invocations in order, the number of `client.authorize` calls, and the
delays of the timer arms. -/
structure AuthOutcome where
  result : Option AuthResult
  state : AuthState
  successEvents : List AuthResult
  failureEvents : List String
  authorizeCount : Nat
  armEvents : List JSNum
deriving DecidableEq

/-- Tail of the `authenticate` promise executor from the freshness
check onwards (authenticator.ts 126-157): the silent-renewal branch
with its `.then`/`.catch` handlers, and the fall-through that arms the
timer and resolves the stored snapshot.  The `reauthenticate`
sub-promise (188-205) rejects on a provider error but, on an extraction
failure, only invokes the failure handler without settling, leaving
both promises pending (`settled = none`). -/
def authTail (cfg : Config) (st0 : AuthState) (accessToken : Option String)
    (expiresAt : Option JSNum) (fr : Bool × Option Bool) (m2 : Medium) (az2 : Nat)
    (r2 : Option AuthResult) (cErr : Option String) (cRes : Option AuthResponse)
    (now : Int) : AuthOutcome :=
  match fr with
  | (true, some true) =>
    -- if (isFresh && isExpiringSoon) return this.reauthenticate().then(...).catch(...)
    let inner : Option (Except String AuthData) :=
      match cErr with
      | some e => some (.error e)
      | none => none
    let ext := extractFromParsed cRes now
    let innerFail : List String :=
      match ext with
      | .error e => [e]
      | .ok _ => []
    let settled : Option (Except String AuthData) :=
      match inner, ext with
      | some x, _ => some x
      | none, .ok d => some (.ok d)
      | none, .error _ => none
    match settled with
    | none =>
      { result := r2, state := { st0 with medium := m2 }, successEvents := [],
        failureEvents := innerFail, authorizeCount := az2, armEvents := [] }
    | some (.ok d) =>
      if d.accessToken ≠ "" ∧ d.expiresAt ≠ 0 then
        let m3 := storeExpiresAt d.expiresAt (storeAccessToken d.accessToken m2)
        let armed := setReauthenticationTimeout { st0 with medium := m3 }
          (some (.int d.expiresAt)) (leewayMs cfg) now
        let snap : AuthResult :=
          { userId := some d.userId, accessToken := some d.accessToken,
            expiresAt := some (.int d.expiresAt) }
        { result := resolveOnce r2
            { accessToken := some d.accessToken, expiresAt := some (.int d.expiresAt) },
          state := armed.fst, successEvents := [snap], failureEvents := innerFail,
          authorizeCount := az2, armEvents := [armed.snd] }
      else
        { result := r2, state := { st0 with medium := m2 }, successEvents := [],
          failureEvents := innerFail, authorizeCount := az2, armEvents := [] }
    | some (.error e) =>
      let m3 := removeExpiresAt (removeAccessToken (removeUserId m2))
      { result := resolveOnce r2 {}, state := { st0 with medium := m3 },
        successEvents := [], failureEvents := innerFail ++ [e],
        authorizeCount := az2, armEvents := [] }
  | _ =>
    -- fall through: arm the timer from the stored expiry, resolve the snapshot
    let armed := setReauthenticationTimeout { st0 with medium := m2 } expiresAt (leewayMs cfg) now
    { result := resolveOnce r2
        { userId := (retrieveUserId m2).map JSVal.str, accessToken := accessToken,
          expiresAt := expiresAt },
      state := armed.fst, successEvents := [], failureEvents := [],
      authorizeCount := az2, armEvents := [armed.snd] }

/-- `Authenticator.authenticate(currentLocation?)` (authenticator.ts
97-158), with the provider's `checkSession` callback outcome passed in
as `cErr`/`cRes`.  The promise executor runs straight through: an early
`resolve` does not stop execution, so later branches still run and
later `resolve` calls are no-ops.  The `reauthenticate` sub-promise
(188-205) rejects on a provider error but, on an extraction failure,
only invokes the failure handler without settling, leaving both
promises pending; that tail from the freshness check onwards is
`authTail`. -/
def authenticate (cfg : Config) (st0 : AuthState) (loc : Option String)
    (cErr : Option String) (cRes : Option AuthResponse) (now : Int) : AuthOutcome :=
  let accessToken := retrieveAccessToken st0.medium
  -- if (!accessToken) { if (currentLocation) { store; authorize } resolve({}) }
  let m1 :=
    match accessToken, loc with
    | none, some l => storeLoginLocation l st0.medium
    | _, _ => st0.medium
  let az1 : Nat :=
    match accessToken, loc with
    | none, some _ => 1
    | _, _ => 0
  let r1 : Option AuthResult :=
    match accessToken with
    | none => some {}
    | some _ => none
  let expiresAt := retrieveExpiresAt m1
  let fr := extractExpirationData expiresAt (some (.int (leewayMs cfg))) now
  -- if (!isFresh && currentLocation) { store; clear token+expiry; authorize; resolve({}) }
  let m2 :=
    match fr.fst, loc with
    | false, some l => removeExpiresAt (removeAccessToken (storeLoginLocation l m1))
    | _, _ => m1
  let az2 :=
    match fr.fst, loc with
    | false, some _ => az1 + 1
    | _, _ => az1
  let r2 :=
    match fr.fst, loc with
    | false, some _ => resolveOnce r1 {}
    | _, _ => r1
  authTail cfg st0 accessToken expiresAt fr m2 az2 r2 cErr cRes now

deriving instance DecidableEq for Except

/-- Everything observable from one `handleLoginSuccess` call. -/
structure LoginOutcome where
  result : Except String AuthResult
  state : AuthState
  armEvents : List JSNum
deriving DecidableEq

/-- `Authenticator.handleLoginSuccess()` (authenticator.ts 69-95), with
the provider's `parseHash` callback outcome passed in as
`perr`/`parsed`.  On parsed data: extract, read then clear
`loginLocation`, persist the record, arm the timer, resolve; a thrown
extraction error rejects before any write happens. -/
def handleLoginSuccess (cfg : Config) (st : AuthState) (perr : Option String)
    (parsed : Option AuthResponse) (now : Int) : LoginOutcome :=
  match parsed with
  | some p =>
    match extractAuthData p now with
    | .ok d =>
      let redirectTo := retrieveLoginLocation st.medium
      let m1 := storeExpiresAt d.expiresAt
        (storeAccessToken d.accessToken
          (storeUserId d.userId.display (removeLoginLocation st.medium)))
      let armed := setReauthenticationTimeout { st with medium := m1 }
        (some (.int d.expiresAt)) (leewayMs cfg) now
      { result := .ok { userId := some d.userId, accessToken := some d.accessToken,
                        expiresAt := some (.int d.expiresAt), redirectTo := redirectTo },
        state := armed.fst, armEvents := [armed.snd] }
    | .error e => { result := .error e, state := st, armEvents := [] }
  | none =>
    match perr with
    | some e => { result := .error e, state := st, armEvents := [] }
    | none =>
      { result := .error "parseHash neither parsed the hash successfully nor returned an error",
        state := st, armEvents := [] }

/-- `Authenticator.promptLogin(currentLocation, opts)`. -/
def promptLogin (l : String) (st : AuthState) : AuthState :=
  { st with medium := storeLoginLocation l st.medium }

/-- `Authenticator.logout()` clears userId, accessToken and expiresAt. -/
def logout (st : AuthState) : AuthState :=
  { st with medium := removeExpiresAt (removeAccessToken (removeUserId st.medium)) }

/-- One externally triggered operation on an `Authenticator`, with the
provider callback outcomes that operation will observe.  `fire i` is
the ambient timer invoking a scheduled callback. -/
inductive Op where
  | auth (loc : Option String) (cErr : Option String) (cRes : Option AuthResponse) (now : Int)
  | login (perr : Option String) (parsed : Option AuthResponse) (now : Int)
  | prompt (l : String)
  | doLogout
  | fire (i : Nat) (cErr : Option String) (cRes : Option AuthResponse) (now : Int)
deriving DecidableEq

/-- State transition of one operation (result values dropped).  A fired
timer is removed from the pending table and re-invokes `authenticate`
with the argument stored at scheduling time. -/
def stepOp (cfg : Config) (st : AuthState) (op : Op) : AuthState :=
  match op with
  | .auth loc cErr cRes now => (authenticate cfg st loc cErr cRes now).state
  | .login perr parsed now => (handleLoginSuccess cfg st perr parsed now).state
  | .prompt l => promptLogin l st
  | .doLogout => logout st
  | .fire i cErr cRes now =>
    match st.pending.find? (fun p => p.fst = i) with
    | some entry =>
      let st1 := { st with pending := st.pending.filter (fun p => p.fst ≠ i) }
      (authenticate cfg st1 entry.snd cErr cRes now).state
    | none => st

def runOps (cfg : Config) (st : AuthState) (ops : List Op) : AuthState :=
  ops.foldl (stepOp cfg) st

/-! ## Spec-side renderings of the extraction validation (for claim C7) -/

/-- `expiresIn > -1` as JavaScript evaluates it on an arbitrary value
(only a number can compare greater than -1; `NaN > -1` is false). -/
def jsGtNegOne : JSVal → Bool
  | .num n => decide (n > -1)
  | _ => false

/-- Validation as the claim words it: the third check rejects an expiry
that is "not a defined number greater than -1".  Follows the claim text,
not the code. -/
def claimedExtractionError (p : AuthResponse) : Option String :=
  if p.idTokenPayload.typeOf ≠ "object" then
    some ("expected idTokenPayload to be an object, got " ++ p.idTokenPayload.display)
  else if p.accessToken.typeOf ≠ "string" then
    some ("expected accessToken to be a string, got " ++ p.accessToken.display)
  else if ¬(p.expiresIn ≠ .undef ∧ p.expiresIn.typeOf = "number" ∧ jsGtNegOne p.expiresIn = true) then
    some ("expected expiresIn to be a positive integer, got " ++ p.expiresIn.display)
  else if p.idTokenPayload.subField.truthy = false then
    some "idTokenPayload.sub not found in parsed hash"
  else none

/-- Validation as the amended claim words it: the third check rejects an
expiry that is falsy (zero, NaN, undefined), not a number, or not
greater than -1. -/
def amendedExtractionError (p : AuthResponse) : Option String :=
  if p.idTokenPayload.typeOf ≠ "object" then
    some ("expected idTokenPayload to be an object, got " ++ p.idTokenPayload.display)
  else if p.accessToken.typeOf ≠ "string" then
    some ("expected accessToken to be a string, got " ++ p.accessToken.display)
  else if ¬(p.expiresIn.truthy = true ∧ p.expiresIn.typeOf = "number" ∧ jsGtNegOne p.expiresIn = true) then
    some ("expected expiresIn to be a positive integer, got " ++ p.expiresIn.display)
  else if p.idTokenPayload.subField.truthy = false then
    some "idTokenPayload.sub not found in parsed hash"
  else none

/-- Timer-table invariant: at most one scheduled renewal callback, it is
the one `reauthTimeoutId` refers to, and it will pass no
`currentLocation`. -/
def TimerInv (st : AuthState) : Prop :=
  st.pending = [] ∨ ∃ i, st.pending = [(i, (none : Option String))] ∧ st.reauthTimeoutId = some i

/-! ## Lemmas: decimal round trip through the string medium -/
theorem char_digit_facts : ∀ d : Nat, d < 10 →
    (Char.ofNat (48 + d)).toNat = 48 + d ∧ (Char.ofNat (48 + d)).isDigit = true := by
  decide

theorem natToRevDigitsAux_ne_nil (fuel n : Nat) (h : n < fuel) :
    natToRevDigitsAux fuel n ≠ [] := by
  cases fuel with
  | zero => omega
  | succ f =>
    unfold natToRevDigitsAux
    split <;> simp

theorem natToRevDigitsAux_digits (fuel : Nat) : ∀ n, n < fuel →
    ∀ c ∈ natToRevDigitsAux fuel n, c.isDigit = true := by
  induction fuel with
  | zero => intro n h; omega
  | succ f ih =>
    intro n h c hc
    unfold natToRevDigitsAux at hc
    split at hc
    · rcases List.mem_singleton.mp hc with rfl
      exact (char_digit_facts n (by omega)).2
    · rcases List.mem_cons.mp hc with rfl | hmem
      · exact (char_digit_facts (n % 10) (by omega)).2
      · exact ih (n / 10) (by omega) c hmem

theorem natToRevDigitsAux_value (fuel : Nat) : ∀ n, n < fuel →
    (natToRevDigitsAux fuel n).foldr (fun c a => a * 10 + (c.toNat - 48)) 0 = n := by
  induction fuel with
  | zero => intro n h; omega
  | succ f ih =>
    intro n h
    unfold natToRevDigitsAux
    split
    · rename_i hlt
      simp [List.foldr, (char_digit_facts n hlt).1]
    · rename_i hge
      have hrec := ih (n / 10) (by omega)
      simp only [List.foldr_cons, hrec, (char_digit_facts (n % 10) (by omega)).1]
      omega

theorem takeWhile_digits (l : List Char) (h : ∀ c ∈ l, c.isDigit = true) :
    l.takeWhile Char.isDigit = l := by
  induction l with
  | nil => rfl
  | cons c cs ih =>
    have hc : c.isDigit = true := h c (List.mem_cons_self c cs)
    simp [List.takeWhile, hc, ih fun x hx => h x (List.mem_cons_of_mem c hx)]

theorem digit_ne_minus (c : Char) (h : c.isDigit = true) : c ≠ '-' := by
  intro hc; subst hc; simp [Char.isDigit] at h

theorem digit_ne_plus (c : Char) (h : c.isDigit = true) : c ≠ '+' := by
  intro hc; subst hc; simp [Char.isDigit] at h

theorem digitsValue_reverse (l : List Char) :
    digitsValue l.reverse = l.foldr (fun c a => a * 10 + (c.toNat - 48)) 0 := by
  simp [digitsValue, List.foldl_reverse]

theorem parseDigits_of_digits (neg : Bool) (l : List Char)
    (hne : l ≠ []) (hd : ∀ c ∈ l, c.isDigit = true) :
    parseDigits neg l =
      .int (if neg then -(digitsValue l : Int) else (digitsValue l : Int)) := by
  unfold parseDigits
  simp [takeWhile_digits l hd, hne]

theorem digitsValue_natToRevDigits (m : Nat) :
    digitsValue (natToRevDigits m).reverse = m := by
  rw [digitsValue_reverse]
  exact natToRevDigitsAux_value _ _ (by omega)

theorem parseIntJS_roundtrip (n : Int) : parseIntJS (jsIntToString n) = .int n := by
  by_cases hn : n < 0
  · have hdig := natToRevDigitsAux_digits (n.natAbs + 1) n.natAbs (by omega)
    have hne : natToRevDigits n.natAbs ≠ [] :=
      natToRevDigitsAux_ne_nil _ _ (by omega)
    have hrevne : (natToRevDigits n.natAbs).reverse ≠ [] := by
      simpa using hne
    have hstep : parseIntJS (jsIntToString n)
        = parseDigits true (natToRevDigits n.natAbs).reverse := by
      simp [jsIntToString, hn, parseIntJS]
    rw [hstep, parseDigits_of_digits true _ hrevne
        (by intro c hc; exact hdig c (List.mem_reverse.mp hc))]
    rw [digitsValue_natToRevDigits]
    show JSNum.int (-(n.natAbs : Int)) = JSNum.int n
    congr 1
    omega
  · have hdig := natToRevDigitsAux_digits (n.toNat + 1) n.toNat (by omega)
    have hne : natToRevDigits n.toNat ≠ [] :=
      natToRevDigitsAux_ne_nil _ _ (by omega)
    rcases hrev : (natToRevDigits n.toNat).reverse with _ | ⟨c, cs⟩
    · exact absurd (by simpa using hrev) hne
    · have hcdig : c.isDigit = true := by
        have hmem : c ∈ (natToRevDigits n.toNat).reverse := by
          rw [hrev]; exact List.mem_cons_self c cs
        exact hdig c (List.mem_reverse.mp hmem)
      have hstep : parseIntJS (jsIntToString n) = parseDigits false (c :: cs) := by
        simp only [jsIntToString, if_neg hn, parseIntJS]
        rw [hrev]
        show (if c = '-' then parseDigits true cs
              else if c = '+' then parseDigits false cs
              else parseDigits false (c :: cs)) = parseDigits false (c :: cs)
        rw [if_neg (digit_ne_minus c hcdig), if_neg (digit_ne_plus c hcdig)]
      rw [hstep, ← hrev, parseDigits_of_digits false _ (by simpa using hne)
          (by intro x hx; exact hdig x (List.mem_reverse.mp hx))]
      rw [digitsValue_natToRevDigits]
      show JSNum.int ((n.toNat : Int)) = JSNum.int n
      congr 1
      omega

theorem jsIntToString_ne_empty (n : Int) : jsIntToString n ≠ "" := by
  unfold jsIntToString
  split
  · intro h
    have h2 : ('-' :: (natToRevDigits n.natAbs).reverse) = ([] : List Char) :=
      congrArg String.data h
    simp at h2
  · intro h
    have h2 : (natToRevDigits n.toNat).reverse = ([] : List Char) :=
      congrArg String.data h
    exact natToRevDigitsAux_ne_nil (n.toNat + 1) n.toNat (by omega) (by simpa using h2)

/-! ## Lemmas: the renewal-timer invariant -/

theorem setReauthenticationTimeout_id (st : AuthState) (e : Option JSNum) (lw now : Int) :
    (setReauthenticationTimeout st e lw now).fst.reauthTimeoutId = some st.nextId := rfl

theorem timerInv_arm (st : AuthState) (e : Option JSNum) (lw now : Int) (h : TimerInv st) :
    (setReauthenticationTimeout st e lw now).fst.pending = [(st.nextId, (none : Option String))] ∧
    TimerInv (setReauthenticationTimeout st e lw now).fst := by
  have hp : (setReauthenticationTimeout st e lw now).fst.pending
      = [(st.nextId, (none : Option String))] := by
    rcases h with h | ⟨i, hp, hi⟩
    · cases hid : st.reauthTimeoutId <;> simp [setReauthenticationTimeout, hid, h]
    · simp [setReauthenticationTimeout, hi, hp]
  exact ⟨hp, Or.inr ⟨st.nextId, hp, setReauthenticationTimeout_id st e lw now⟩⟩

theorem timerInv_filter (st : AuthState) (i : Nat) (h : TimerInv st) :
    TimerInv { st with pending := st.pending.filter (fun p => p.fst ≠ i) } := by
  rcases h with h | ⟨j, hp, hj⟩
  · left; simp [TimerInv, h]
  · by_cases hji : j = i
    · left; simp [hp, hji]
    · right; exact ⟨j, by simp [hp, hji], hj⟩


theorem timerInv_authTail (cfg : Config) (st0 : AuthState) (acc : Option String)
    (ea : Option JSNum) (fr : Bool × Option Bool) (m2 : Medium) (az2 : Nat)
    (r2 : Option AuthResult) (cErr : Option String) (cRes : Option AuthResponse)
    (now : Int) (h : TimerInv st0) :
    TimerInv (authTail cfg st0 acc ea fr m2 az2 r2 cErr cRes now).state := by
  have hm : ∀ m : Medium, TimerInv { st0 with medium := m } := fun _ => h
  obtain ⟨b, ob⟩ := fr
  cases b with
  | false => exact (timerInv_arm { st0 with medium := m2 } ea (leewayMs cfg) now (hm m2)).2
  | true =>
    cases ob with
    | none => exact (timerInv_arm { st0 with medium := m2 } ea (leewayMs cfg) now (hm m2)).2
    | some bb =>
      cases bb with
      | false => exact (timerInv_arm { st0 with medium := m2 } ea (leewayMs cfg) now (hm m2)).2
      | true =>
        cases cErr with
        | some e =>
          simp only [authTail]
          exact hm _
        | none =>
          rcases hext : extractFromParsed cRes now with e | d
          · simp only [authTail, hext]
            exact hm _
          · by_cases hok : d.accessToken ≠ "" ∧ d.expiresAt ≠ 0
            · simp only [authTail, hext, if_pos hok]
              exact (timerInv_arm _ _ _ _ (hm _)).2
            · simp only [authTail, hext, if_neg hok]
              exact hm _

theorem timerInv_authenticate (cfg : Config) (st : AuthState) (loc cErr : Option String)
    (cRes : Option AuthResponse) (now : Int) (h : TimerInv st) :
    TimerInv (authenticate cfg st loc cErr cRes now).state := by
  simp only [authenticate]
  exact timerInv_authTail cfg st _ _ _ _ _ _ cErr cRes now h

theorem timerInv_login (cfg : Config) (st : AuthState) (perr : Option String)
    (parsed : Option AuthResponse) (now : Int) (h : TimerInv st) :
    TimerInv (handleLoginSuccess cfg st perr parsed now).state := by
  have hm : ∀ m : Medium, TimerInv { st with medium := m } := fun _ => h
  cases parsed with
  | none =>
    cases perr with
    | none => exact h
    | some e => exact h
  | some p =>
    rcases hx : extractAuthData p now with e | d
    · simp only [handleLoginSuccess, hx]
      exact h
    · simp only [handleLoginSuccess, hx]
      exact (timerInv_arm _ _ _ _ (hm _)).2

theorem timerInv_step (cfg : Config) (st : AuthState) (op : Op) (h : TimerInv st) :
    TimerInv (stepOp cfg st op) := by
  cases op with
  | auth loc cErr cRes now => exact timerInv_authenticate cfg st loc cErr cRes now h
  | login perr parsed now => exact timerInv_login cfg st perr parsed now h
  | prompt l => exact h
  | doLogout => exact h
  | fire i cErr cRes now =>
    simp only [stepOp]
    rcases hf : st.pending.find? (fun p => p.fst = i) with _ | entry
    · rw [hf]
      exact h
    · rw [hf]
      exact timerInv_authenticate cfg _ entry.snd cErr cRes now (timerInv_filter st i h)

theorem timerInv_run (cfg : Config) (ops : List Op) :
    ∀ st : AuthState, TimerInv st → TimerInv (runOps cfg st ops) := by
  induction ops with
  | nil => intro st h; exact h
  | cons op rest ih =>
    intro st h
    exact ih (stepOp cfg st op) (timerInv_step cfg st op h)

theorem authTail_arm_counts (cfg : Config) (st0 : AuthState) (acc : Option String)
    (ea : Option JSNum) (fr : Bool × Option Bool) (m2 : Medium) (az2 : Nat)
    (r2 : Option AuthResult) (cErr : Option String) (cRes : Option AuthResponse)
    (now : Int) :
    (authTail cfg st0 acc ea fr m2 az2 r2 cErr cRes now).armEvents.length ≤ 1 ∧
    (authTail cfg st0 acc ea fr m2 az2 r2 cErr cRes now).successEvents.length
      ≤ (authTail cfg st0 acc ea fr m2 az2 r2 cErr cRes now).armEvents.length := by
  obtain ⟨b, ob⟩ := fr
  cases b with
  | false => simp [authTail]
  | true =>
    cases ob with
    | none => simp [authTail]
    | some bb =>
      cases bb with
      | false => simp [authTail]
      | true =>
        cases cErr with
        | some e => simp [authTail]
        | none =>
          rcases hext : extractFromParsed cRes now with e | d
          · simp [authTail, hext]
          · by_cases hok : d.accessToken ≠ "" ∧ d.expiresAt ≠ 0
            · simp [authTail, hext, if_pos hok]
            · simp [authTail, hext, if_neg hok]

theorem authenticate_arm_counts (cfg : Config) (st : AuthState) (loc cErr : Option String)
    (cRes : Option AuthResponse) (now : Int) :
    (authenticate cfg st loc cErr cRes now).armEvents.length ≤ 1 ∧
    (authenticate cfg st loc cErr cRes now).successEvents.length
      ≤ (authenticate cfg st loc cErr cRes now).armEvents.length := by
  simp only [authenticate]
  exact authTail_arm_counts cfg st _ _ _ _ _ _ cErr cRes now

/-! ## Claim theorems -/

/-- C3 counterexample: with a fresh expiry 5 ms from now and the valid
non-negative integer leeway 0, the evaluator answers
`isRenewalDue = true`, but the claim's formula `remaining < leeway`
(5 < 0) is false — a zero leeway is falsy, so the code takes the
conservative branch instead of comparing. -/
theorem extractExpirationData_zero_leeway_counterexample :
    extractExpirationData (some (.int 105)) (some (.int 0)) 100 = (true, some true) ∧
    extractExpirationData (some (.int 105)) (some (.int 0)) 100
      ≠ (true, some (decide ((105 : Int) - 100 < 0))) := by
  decide

/-- C3 (amended): the evaluator returns `(false, absent)` for an absent,
NaN or zero expiry and for a negative remaining; otherwise it is fresh,
with `isRenewalDue = (remaining < leeway)` whenever the leeway is a
nonzero integer, and `isRenewalDue = true` whenever the leeway is zero,
absent or malformed (NaN). -/
theorem extractExpirationData_characterization (n l now : Int) :
    (extractExpirationData none (some (.int l)) now = (false, none)) ∧
    (extractExpirationData (some .nan) (some (.int l)) now = (false, none)) ∧
    (extractExpirationData (some (.int 0)) (some (.int l)) now = (false, none)) ∧
    (n ≠ 0 → n - now < 0 →
      extractExpirationData (some (.int n)) (some (.int l)) now = (false, none)) ∧
    (n ≠ 0 → 0 ≤ n - now → l ≠ 0 →
      extractExpirationData (some (.int n)) (some (.int l)) now
        = (true, some (decide (n - now < l)))) ∧
    (n ≠ 0 → 0 ≤ n - now →
      extractExpirationData (some (.int n)) (some (.int 0)) now = (true, some true)) ∧
    (n ≠ 0 → 0 ≤ n - now →
      extractExpirationData (some (.int n)) (some .nan) now = (true, some true)) ∧
    (n ≠ 0 → 0 ≤ n - now →
      extractExpirationData (some (.int n)) none now = (true, some true)) := by
  refine ⟨rfl, rfl, by simp [extractExpirationData], ?_, ?_, ?_, ?_, ?_⟩
  · intro h1 h2
    simp [extractExpirationData, h1, h2]
  · intro h1 h2 h3
    have h2n : ¬(n - now < 0) := by omega
    simp [extractExpirationData, h1, h2n, h3]
  · intro h1 h2
    have h2n : ¬(n - now < 0) := by omega
    simp [extractExpirationData, h1, h2n]
  · intro h1 h2
    have h2n : ¬(n - now < 0) := by omega
    simp [extractExpirationData, h1, h2n]
  · intro h1 h2
    have h2n : ¬(n - now < 0) := by omega
    simp [extractExpirationData, h1, h2n]

theorem extractExpirationData_characterization_witness :
    extractExpirationData (some (.int 105)) (some (.int 7200)) 100 = (true, some true) := by
  have h := (extractExpirationData_characterization 105 7200 100).2.2.2.2.1
    (by decide) (by decide) (by decide)
  simpa using h

/-- C4 counterexample: `expiresIn = 0` satisfies the claim's premise
`expiresIn >= 0` but extraction fails (`!expiresIn` is truthy for 0),
with the positive-integer message. -/
theorem extractAuthData_zero_expiresIn_counterexample :
    (0 : Int) ≥ 0 ∧
    extractAuthData
        { idTokenPayload := .obj (.str "u"), accessToken := .str "t", expiresIn := .num 0 } 0
      = .error "expected expiresIn to be a positive integer, got 0" := by
  decide

/-- C4 (amended): for every `expiresIn > 0`, extraction of a response
with a string access token, an object payload with a truthy `sub`, and
that `expiresIn` succeeds, with `expiresAt = now + expiresIn * 1000`,
`userId = sub` and the access token passed through. -/
theorem extractAuthData_success (e now : Int) (tok : String) (sub : JSVal)
    (he : 0 < e) (hs : sub.truthy = true) :
    extractAuthData { idTokenPayload := .obj sub, accessToken := .str tok, expiresIn := .num e } now
      = .ok { userId := sub, accessToken := tok, expiresAt := now + e * 1000 } := by
  have h1 : ¬(e = 0 ∨ ¬(e > -1)) := by omega
  simp [extractAuthData, h1, hs]
  omega

theorem extractAuthData_success_witness :
    extractAuthData
        { idTokenPayload := .obj (.str "u"), accessToken := .str "t", expiresIn := .num 7200 } 0
      = .ok { userId := .str "u", accessToken := "t", expiresAt := 0 + 7200 * 1000 } :=
  extractAuthData_success 7200 0 "t" (.str "u") (by decide) (by decide)

/-- C7 counterexample: on `expiresIn = 0` the claim's four checks are
all satisfied (0 is a defined number greater than -1 and `sub` is
truthy), so the claimed validation yields no error, yet the code
rejects with the positive-integer message — the code's third check also
rejects a falsy expiry. -/
theorem extractAuthData_validation_counterexample :
    claimedExtractionError
        { idTokenPayload := .obj (.str "u"), accessToken := .str "t", expiresIn := .num 0 }
      = none ∧
    extractAuthData
        { idTokenPayload := .obj (.str "u"), accessToken := .str "t", expiresIn := .num 0 } 1000
      = .error "expected expiresIn to be a positive integer, got 0" := by
  decide

set_option linter.unnecessarySeqFocus false in
/-- C7 (amended): extraction fails with message `e` exactly when the
four checks, in order — payload an object, token a string, expiry a
truthy number greater than -1, `sub` truthy — first fail at the check
producing `e`, with the claimed messages. -/
theorem extractAuthData_validation_order (p : AuthResponse) (now : Int) (e : String) :
    extractAuthData p now = .error e ↔ amendedExtractionError p = some e := by
  rcases p with ⟨ip, atk, ei⟩
  cases ip <;> cases atk <;> cases ei <;>
    simp [extractAuthData, amendedExtractionError, JSVal.typeOf, JSVal.display,
      JSVal.truthy, JSVal.subField, jsGtNegOne] <;>
    split_ifs <;>
    simp_all <;>
    omega

/-- C9 counterexample: storing the empty string then retrieving yields
absent, not the stored value (`stringOrUndefined` collapses a falsy
read); and an unparsable stored numeric value is retrieved as NaN, not
as the absent marker. -/
theorem authStorage_roundtrip_counterexample :
    retrieveLoginLocation (storeLoginLocation "" emptyMedium) = none ∧
    (none : Option String) ≠ some "" ∧
    retrieveExpiresAt { emptyMedium with expiresAt := some "corrupt" } = some .nan ∧
    some JSNum.nan ≠ (none : Option JSNum) := by
  decide

/-- C9 (amended): for every non-empty string value and each string
credential field, store-then-retrieve returns exactly the stored value;
the numeric fields round-trip through the string medium for every
JavaScript-safe integer; remove-then-retrieve returns absent; and a
non-empty unparsable stored numeric value is retrieved as the (falsy)
NaN produced by `parseInt`, never an error. -/
theorem authStorage_roundtrip (m : Medium) (v : String) (n : Int) (s : String)
    (hv : v ≠ "") (_hn : n.natAbs ≤ 9007199254740991) (hs : s ≠ "") :
    retrieveLoginLocation (storeLoginLocation v m) = some v ∧
    retrieveUserId (storeUserId v m) = some v ∧
    retrieveAccessToken (storeAccessToken v m) = some v ∧
    retrieveExpiresAt (storeExpiresAt n m) = some (.int n) ∧
    retrieveNonce (storeNonce n m) = some (.int n) ∧
    retrieveLoginLocation (removeLoginLocation m) = none ∧
    retrieveUserId (removeUserId m) = none ∧
    retrieveAccessToken (removeAccessToken m) = none ∧
    retrieveExpiresAt (removeExpiresAt m) = none ∧
    retrieveNonce (removeNonce m) = none ∧
    retrieveExpiresAt { m with expiresAt := some s } = some (parseIntJS s) := by
  refine ⟨?_, ?_, ?_, ?_, ?_, rfl, rfl, rfl, rfl, rfl, ?_⟩
  · simp [retrieveLoginLocation, storeLoginLocation, stringOrUndefined, hv]
  · simp [retrieveUserId, storeUserId, stringOrUndefined, hv]
  · simp [retrieveAccessToken, storeAccessToken, stringOrUndefined, hv]
  · simp [retrieveExpiresAt, storeExpiresAt, jsIntToString_ne_empty n, parseIntJS_roundtrip n]
  · simp [retrieveNonce, storeNonce, jsIntToString_ne_empty n, parseIntJS_roundtrip n]
  · simp [retrieveExpiresAt, hs]

theorem authStorage_roundtrip_witness :
    retrieveExpiresAt (storeExpiresAt 9007199254740991 emptyMedium)
      = some (.int 9007199254740991) :=
  (authStorage_roundtrip emptyMedium "x" 9007199254740991 "corrupt"
    (by decide) (by decide) (by decide)).2.2.2.1

/-- C5: when the provider hands `handleLoginSuccess` parsed data whose
extraction fails, the promise rejects with exactly the extraction error
and the state — in particular every storage field — is exactly what it
was before the call, with no timer armed. -/
theorem handleLoginSuccess_extraction_failure (cfg : Config) (st : AuthState)
    (perr : Option String) (p : AuthResponse) (now : Int) (e : String)
    (h : extractAuthData p now = .error e) :
    handleLoginSuccess cfg st perr (some p) now
      = { result := .error e, state := st, armEvents := [] } := by
  simp [handleLoginSuccess, h]

theorem handleLoginSuccess_extraction_failure_witness :
    handleLoginSuccess {} initState none
        (some { idTokenPayload := .num 5, accessToken := .str "t", expiresIn := .num 7200 }) 0
      = { result := .error "expected idTokenPayload to be an object, got 5",
          state := initState, armEvents := [] } :=
  handleLoginSuccess_extraction_failure {} initState none
    { idTokenPayload := .num 5, accessToken := .str "t", expiresIn := .num 7200 } 0
    "expected idTokenPayload to be an object, got 5" (by decide)

/-- C6: when extraction of the parsed data succeeds, the call resolves
with the extracted `userId`, `accessToken`, `expiresAt` and
`redirectTo` equal to the `loginLocation` read from storage before the
call; afterwards `loginLocation` is cleared and the extracted
`userId` / `accessToken` / `expiresAt` are persisted. -/
theorem handleLoginSuccess_commit (cfg : Config) (st : AuthState) (perr : Option String)
    (p : AuthResponse) (now : Int) (d : AuthData)
    (h : extractAuthData p now = .ok d) :
    (handleLoginSuccess cfg st perr (some p) now).result
      = .ok { userId := some d.userId, accessToken := some d.accessToken,
              expiresAt := some (.int d.expiresAt),
              redirectTo := retrieveLoginLocation st.medium } ∧
    (handleLoginSuccess cfg st perr (some p) now).state.medium.loginLocation = none ∧
    (handleLoginSuccess cfg st perr (some p) now).state.medium.userId
      = some d.userId.display ∧
    (handleLoginSuccess cfg st perr (some p) now).state.medium.accessToken
      = some d.accessToken ∧
    (handleLoginSuccess cfg st perr (some p) now).state.medium.expiresAt
      = some (jsIntToString d.expiresAt) := by
  simp [handleLoginSuccess, h, setReauthenticationTimeout, storeExpiresAt,
    storeAccessToken, storeUserId, removeLoginLocation]

theorem handleLoginSuccess_commit_witness :
    (handleLoginSuccess {} { medium := { emptyMedium with loginLocation := some "/page" } } none
        (some { idTokenPayload := .obj (.str "u"), accessToken := .str "t",
                expiresIn := .num 7200 }) 0).result
      = .ok { userId := some (.str "u"), accessToken := some "t",
              expiresAt := some (.int (0 + 7200 * 1000)), redirectTo := some "/page" } ∧
    (handleLoginSuccess {} { medium := { emptyMedium with loginLocation := some "/page" } } none
        (some { idTokenPayload := .obj (.str "u"), accessToken := .str "t",
                expiresIn := .num 7200 }) 0).state.medium.loginLocation = none := by
  have h := handleLoginSuccess_commit {}
    { medium := { emptyMedium with loginLocation := some "/page" } } none
    { idTokenPayload := .obj (.str "u"), accessToken := .str "t", expiresIn := .num 7200 } 0
    { userId := .str "u", accessToken := "t", expiresAt := 0 + 7200 * 1000 } (by decide)
  exact ⟨h.1, h.2.1⟩

/-- C2 counterexample: with a stored token `"t"` and a stored expiry 100
already in the past at `now = 10000` and no `currentLocation`, the
promise resolves with the stale stored snapshot — not with the empty
snapshot the claim states. -/
theorem authenticate_expired_counterexample :
    (authenticate {}
        { initState with medium := { emptyMedium with accessToken := some "t", expiresAt := some "100" } }
        none none none 10000).result
      = some { userId := none, accessToken := some "t", expiresAt := some (.int 100),
               redirectTo := none } ∧
    some { userId := none, accessToken := some "t", expiresAt := some (JSNum.int 100),
           redirectTo := none } ≠ some ({} : AuthResult) := by
  decide

/-- C2 (amended): on a call with no `currentLocation` where a token is
stored but the stored expiry evaluates as not fresh, the promise
resolves with the stored (stale) snapshot — `userId`, `accessToken` and
`expiresAt` as read from storage — and the stored `accessToken` and
`expiresAt` are left unchanged (no clearing), with no failure callback
and no interactive login. -/
theorem authenticate_expired_no_location (cfg : Config) (st : AuthState) (t : String)
    (cErr : Option String) (cRes : Option AuthResponse) (now : Int)
    (h1 : retrieveAccessToken st.medium = some t)
    (h2 : (extractExpirationData (retrieveExpiresAt st.medium)
            (some (.int (leewayMs cfg))) now).fst = false) :
    (authenticate cfg st none cErr cRes now).result
      = some { userId := (retrieveUserId st.medium).map JSVal.str, accessToken := some t,
               expiresAt := retrieveExpiresAt st.medium, redirectTo := none } ∧
    (authenticate cfg st none cErr cRes now).state.medium = st.medium ∧
    (authenticate cfg st none cErr cRes now).failureEvents = [] ∧
    (authenticate cfg st none cErr cRes now).authorizeCount = 0 := by
  rcases hfr : extractExpirationData (retrieveExpiresAt st.medium)
      (some (.int (leewayMs cfg))) now with ⟨b, ob⟩
  rw [hfr] at h2
  simp only at h2
  subst h2
  simp [authenticate, h1, hfr, authTail, setReauthenticationTimeout, resolveOnce]

theorem authenticate_expired_no_location_witness :
    (authenticate {}
        { initState with medium :=
          { emptyMedium with userId := some "u", accessToken := some "t", expiresAt := some "100" } }
        none none none 10000).result
      = some { userId := some (.str "u"), accessToken := some "t",
               expiresAt := some (.int 100), redirectTo := none } ∧
    (authenticate {}
        { initState with medium :=
          { emptyMedium with userId := some "u", accessToken := some "t", expiresAt := some "100" } }
        none none none 10000).state.medium
      = { emptyMedium with userId := some "u", accessToken := some "t", expiresAt := some "100" } := by
  have h := authenticate_expired_no_location {}
    { initState with medium :=
      { emptyMedium with userId := some "u", accessToken := some "t", expiresAt := some "100" } }
    "t" none none 10000 (by decide) (by decide)
  exact ⟨h.1, h.2.1⟩

/-- C10 counterexample: with no stored access token but a stored fresh
expiry (5000000000 at `now = 0`), the promise still resolves empty, but
the expiration evaluation runs on the present stored expiry and the
timer delay is computed from it (4998800000 ms), not from an absent
`expiresAt` (which would give a NaN delay). -/
theorem authenticate_no_token_stored_expiry_counterexample :
    retrieveAccessToken { emptyMedium with expiresAt := some "5000000000" } = none ∧
    retrieveExpiresAt { emptyMedium with expiresAt := some "5000000000" } ≠ none ∧
    (authenticate {} { initState with medium := { emptyMedium with expiresAt := some "5000000000" } }
        none none none 0).result = some {} ∧
    (authenticate {} { initState with medium := { emptyMedium with expiresAt := some "5000000000" } }
        none none none 0).armEvents = [.int 4998800000] ∧
    (authenticate {} { initState with medium := { emptyMedium with expiresAt := some "5000000000" } }
        none none none 0).armEvents ≠ [JSNum.nan] := by
  decide

/-- C10 (amended): on every call where storage holds neither an access
token nor an expiry, the promise resolves with the empty snapshot while
execution continues past that resolution: the expiration evaluation
runs on the absent expiry, yielding `(false, none)`, and the renewal
timer is still armed exactly once — replacing the stored timeout id —
with its delay the NaN obtained from the absent `expiresAt`; with and
without a `currentLocation`. -/
theorem authenticate_no_session_continues (cfg : Config) (st : AuthState)
    (loc cErr : Option String) (cRes : Option AuthResponse) (now : Int)
    (h1 : retrieveAccessToken st.medium = none)
    (h2 : retrieveExpiresAt st.medium = none) :
    (authenticate cfg st loc cErr cRes now).result = some {} ∧
    (authenticate cfg st loc cErr cRes now).armEvents = [JSNum.nan] ∧
    (authenticate cfg st loc cErr cRes now).state.reauthTimeoutId = some st.nextId ∧
    extractExpirationData (retrieveExpiresAt st.medium) (some (.int (leewayMs cfg))) now
      = (false, none) := by
  cases loc with
  | none =>
    simp [authenticate, h1, h2, authTail, extractExpirationData,
      setReauthenticationTimeout, resolveOnce]
  | some l =>
    have h2l : retrieveExpiresAt (storeLoginLocation l st.medium) = none := h2
    simp [authenticate, h1, h2, h2l, authTail, extractExpirationData,
      setReauthenticationTimeout, resolveOnce]

theorem authenticate_no_session_continues_witness :
    (authenticate {} initState (some "/p") none none 0).result = some {} ∧
    (authenticate {} initState (some "/p") none none 0).armEvents = [JSNum.nan] ∧
    (authenticate {} initState (some "/p") none none 0).state.reauthTimeoutId = some 0 ∧
    extractExpirationData (retrieveExpiresAt initState.medium)
        (some (.int (leewayMs {}))) 0 = (false, none) :=
  authenticate_no_session_continues {} initState (some "/p") none none 0
    (by decide) (by decide)

/-- C1: evaluation at the failing input.  The stored credential is
fresh (expiry 9000 at `now = 8000`) and renewal-due (1000 ms remaining,
default leeway 1200000 ms); `checkSession` reports no error but returns
a response whose extraction fails (no `sub`).  The renewal-failure
handler fires inside `reauthenticate`, but neither promise ever
settles: the result is `none`, storage is left with the stale token and
expiry (nothing cleared), and no timer is armed — contradicting the
claimed clear-all / resolve-empty failure handling. -/
theorem authenticate_renewal_unextractable_hangs :
    (authenticate {}
        { initState with medium :=
          { emptyMedium with userId := some "u", accessToken := some "t", expiresAt := some "9000" } }
        none none
        (some { idTokenPayload := .obj .undef, accessToken := .str "t1", expiresIn := .num 7200 })
        8000).result = none ∧
    (authenticate {}
        { initState with medium :=
          { emptyMedium with userId := some "u", accessToken := some "t", expiresAt := some "9000" } }
        none none
        (some { idTokenPayload := .obj .undef, accessToken := .str "t1", expiresIn := .num 7200 })
        8000).state.medium
      = { emptyMedium with userId := some "u", accessToken := some "t", expiresAt := some "9000" } ∧
    (authenticate {}
        { initState with medium :=
          { emptyMedium with userId := some "u", accessToken := some "t", expiresAt := some "9000" } }
        none none
        (some { idTokenPayload := .obj .undef, accessToken := .str "t1", expiresIn := .num 7200 })
        8000).failureEvents = ["idTokenPayload.sub not found in parsed hash"] ∧
    (authenticate {}
        { initState with medium :=
          { emptyMedium with userId := some "u", accessToken := some "t", expiresAt := some "9000" } }
        none none
        (some { idTokenPayload := .obj .undef, accessToken := .str "t1", expiresIn := .num 7200 })
        8000).armEvents = [] := by
  decide

/-- C8: after any sequence of operations from the initial state there
is at most one pending renewal timer and every pending callback will
pass no current-location argument; one further `authenticate` call arms
the timer at most once, and at least once whenever it commits a renewal
(fires the success handler); and arming first cancels the previously
scheduled callback, leaving exactly the one new entry pending. -/
theorem renewal_timer_single (cfg : Config) (ops : List Op) (loc cErr : Option String)
    (cRes : Option AuthResponse) (now : Int) :
    ((runOps cfg initState ops).pending.length ≤ 1) ∧
    ((runOps cfg initState ops).pending.all (fun p => p.snd.isNone) = true) ∧
    ((authenticate cfg (runOps cfg initState ops) loc cErr cRes now).armEvents.length ≤ 1) ∧
    ((authenticate cfg (runOps cfg initState ops) loc cErr cRes now).successEvents.length
      ≤ (authenticate cfg (runOps cfg initState ops) loc cErr cRes now).armEvents.length) ∧
    ((setReauthenticationTimeout (runOps cfg initState ops)
        (retrieveExpiresAt (runOps cfg initState ops).medium) (leewayMs cfg) now).fst.pending
      = [((runOps cfg initState ops).nextId, (none : Option String))]) := by
  have hinv : TimerInv (runOps cfg initState ops) :=
    timerInv_run cfg ops initState (Or.inl rfl)
  have harm := authenticate_arm_counts cfg (runOps cfg initState ops) loc cErr cRes now
  refine ⟨?_, ?_, harm.1, harm.2,
    (timerInv_arm (runOps cfg initState ops)
      (retrieveExpiresAt (runOps cfg initState ops).medium) (leewayMs cfg) now hinv).1⟩
  · rcases hinv with h | ⟨i, hp, hi⟩
    · simp [h]
    · simp [hp]
  · rcases hinv with h | ⟨i, hp, hi⟩
    · simp [h]
    · simp [hp]
